import Mathlib

/-
Verification of the facial-asymmetry analyzer and symmetry-image composer
of app.py (MediaPipe cloud edition).  The analyzer works on exact numbers:
landmark coordinates are modelled as rationals (Python floats are a subset
of the rationals and all arithmetic performed by the source on the values
of interest is exact), pixel coordinates as integers.
-/

/-- Landmark delivered by the detector: normalized x and y coordinates. -/
structure Landmark where
  x : ℚ
  y : ℚ

/-- Truncation toward zero, the semantics of Python int() on a number. -/
def truncQ (q : ℚ) : ℤ := if 0 ≤ q then ⌊q⌋ else ⌈q⌉

/-- Rounding half to even, the semantics of Python round() to an integer. -/
def pyRound (q : ℚ) : ℤ :=
  let n := ⌊q⌋
  let f := q - (n : ℚ)
  if f < 1 / 2 then n
  else if 1 / 2 < f then n + 1
  else if n % 2 = 0 then n else n + 1

/-- Rounding to one decimal place, the semantics of Python round(v, 1)
on the exact decimal values produced by the analyzer. -/
def round1 (q : ℚ) : ℚ := (pyRound (10 * q) : ℚ) / 10

/-- Clamping to an interval, used to state the composite-score claim. -/
def clamp (lo hi x : ℚ) : ℚ := max lo (min hi x)

/-- MediaPipe landmark index of the left eye outer corner (app.py line 42). -/
def LEFT_EYE_OUTER : ℕ := 33

/-- MediaPipe landmark index of the right eye outer corner (app.py line 43). -/
def RIGHT_EYE_OUTER : ℕ := 263

/-- MediaPipe landmark index of the nose tip (app.py line 44). -/
def NOSE_TIP : ℕ := 1

/-- MediaPipe landmark index of the chin (app.py line 45). -/
def CHIN : ℕ := 18

/-- MediaPipe landmark index of the left mouth corner (app.py line 46). -/
def LEFT_MOUTH : ℕ := 61

/-- MediaPipe landmark index of the right mouth corner (app.py line 47). -/
def RIGHT_MOUTH : ℕ := 291

/-- Positional access landmarks[i]; the default is never reached because
every use is guarded by the 468-entry length check of the source. -/
def lmAt (lms : List Landmark) (i : ℕ) : Landmark := lms.getD i ⟨0, 0⟩

/-- Conversion of one normalized landmark to pixel coordinates,
app.py lines 50-51: [int(landmark.x * image_width), int(landmark.y * image_height)]. -/
def to_pixel (lm : Landmark) (image_width image_height : ℤ) : ℤ × ℤ :=
  (truncQ (lm.x * image_width), truncQ (lm.y * image_height))

/-- Pixel position of the left eye outer corner (app.py line 53). -/
def left_eye_px (lms : List Landmark) (w h : ℤ) : ℤ × ℤ :=
  to_pixel (lmAt lms LEFT_EYE_OUTER) w h

/-- Pixel position of the right eye outer corner (app.py line 54). -/
def right_eye_px (lms : List Landmark) (w h : ℤ) : ℤ × ℤ :=
  to_pixel (lmAt lms RIGHT_EYE_OUTER) w h

/-- Pixel position of the nose tip (app.py line 55). -/
def nose_tip_px (lms : List Landmark) (w h : ℤ) : ℤ × ℤ :=
  to_pixel (lmAt lms NOSE_TIP) w h

/-- Pixel position of the chin (app.py line 56). -/
def chin_px (lms : List Landmark) (w h : ℤ) : ℤ × ℤ :=
  to_pixel (lmAt lms CHIN) w h

/-- Pixel position of the left mouth corner (app.py line 57). -/
def left_mouth_px (lms : List Landmark) (w h : ℤ) : ℤ × ℤ :=
  to_pixel (lmAt lms LEFT_MOUTH) w h

/-- Pixel position of the right mouth corner (app.py line 58). -/
def right_mouth_px (lms : List Landmark) (w h : ℤ) : ℤ × ℤ :=
  to_pixel (lmAt lms RIGHT_MOUTH) w h

/-- Raw eye delta, app.py line 61: eye_diff = left_eye[1] - right_eye[1]. -/
def eye_diff_raw (lms : List Landmark) (w h : ℤ) : ℤ :=
  (left_eye_px lms w h).2 - (right_eye_px lms w h).2

/-- Raw mouth delta, app.py line 62: mouth_diff = left_mouth[1] - right_mouth[1]. -/
def mouth_diff_raw (lms : List Landmark) (w h : ℤ) : ℤ :=
  (left_mouth_px lms w h).2 - (right_mouth_px lms w h).2

/-- Face center x, app.py line 65: (left_eye[0] + right_eye[0]) / 2,
a true (float) division in the source, hence a rational here. -/
def face_center_x_raw (lms : List Landmark) (w h : ℤ) : ℚ :=
  (((left_eye_px lms w h).1 : ℚ) + ((right_eye_px lms w h).1 : ℚ)) / 2

/-- Raw nose offset, app.py line 66: nose_tip[0] - face_center_x. -/
def nose_offset_raw (lms : List Landmark) (w h : ℤ) : ℚ :=
  ((nose_tip_px lms w h).1 : ℚ) - face_center_x_raw lms w h

/-- Face width, app.py line 69: abs(right_eye[0] - left_eye[0]). -/
def face_width_raw (lms : List Landmark) (w h : ℤ) : ℤ :=
  |(right_eye_px lms w h).1 - (left_eye_px lms w h).1|

/-- Horizontal offset of the face center from the screen center,
app.py lines 70 and 73. -/
def position_offset_x_raw (lms : List Landmark) (w h : ℤ) : ℚ :=
  |face_center_x_raw lms w h - (w : ℚ) / 2|

/-- Face stability, app.py line 85: abs(eye_diff) + abs(mouth_diff). -/
def face_stability_raw (lms : List Landmark) (w h : ℤ) : ℤ :=
  |eye_diff_raw lms w h| + |mouth_diff_raw lms w h|

/-- Total asymmetry value, app.py line 99: the sum of the three absolute
component magnitudes. -/
def total_asym_raw (lms : List Landmark) (w h : ℤ) : ℚ :=
  (|eye_diff_raw lms w h| : ℚ) + (|mouth_diff_raw lms w h| : ℚ) +
    |nose_offset_raw lms w h|

/-- Composite score before rounding, app.py line 100:
total_score = min(100, total_asym_value * 3). -/
def total_score_raw (lms : List Landmark) (w h : ℤ) : ℚ :=
  min 100 (total_asym_raw lms w h * 3)

/-- Capture readiness, app.py lines 87-92. -/
def capture_ready_raw (lms : List Landmark) (w h : ℤ) : Bool :=
  decide (120 ≤ face_width_raw lms w h ∧ face_width_raw lms w h ≤ 200 ∧
    |nose_offset_raw lms w h| < 15 ∧ position_offset_x_raw lms w h < 60 ∧
    face_stability_raw lms w h < 25)

/-- Distance feedback, app.py lines 76-81. -/
def distance_feedback_raw (lms : List Landmark) (w h : ℤ) : String :=
  if face_width_raw lms w h < 120 then "얼굴을 카메라에 더 가까이 가져오세요"
  else if face_width_raw lms w h > 200 then "얼굴을 카메라에서 조금 멀리 하세요"
  else "적정 거리입니다"

/-- Eye direction label, app.py line 103. -/
def eye_direction_raw (lms : List Landmark) (w h : ℤ) : String :=
  if eye_diff_raw lms w h < 0 then "오른쪽 높음"
  else if eye_diff_raw lms w h > 0 then "왼쪽 높음" else "대칭"

/-- Mouth direction label, app.py line 104. -/
def mouth_direction_raw (lms : List Landmark) (w h : ℤ) : String :=
  if mouth_diff_raw lms w h < 0 then "오른쪽 높음"
  else if mouth_diff_raw lms w h > 0 then "왼쪽 높음" else "대칭"

/-- Nose direction label, app.py line 105. -/
def nose_direction_raw (lms : List Landmark) (w h : ℤ) : String :=
  if nose_offset_raw lms w h > 0 then "왼쪽 치우침"
  else if nose_offset_raw lms w h < 0 then "오른쪽 치우침" else "대칭"

/-- Assessment label from the composite score, app.py lines 133-143. -/
def get_asymmetry_assessment (score : ℚ) : String :=
  if score < 5 then "매우 우수 (Very Symmetrical)"
  else if score < 10 then "우수 (Good Symmetry)"
  else if score < 20 then "보통 (Slight Asymmetry)"
  else if score < 30 then "주의 (Moderate Asymmetry)"
  else "개선 필요 (Significant Asymmetry)"

/-- Result record returned per frame, one field per key of the dict built
at app.py lines 112-131. -/
structure AsymmetryResult where
  eye_diff : ℚ
  mouth_diff : ℚ
  nose_offset : ℚ
  eye_asymmetry_val : ℚ
  mouth_asymmetry_val : ℚ
  nose_asymmetry_val : ℚ
  eye_direction : String
  mouth_direction : String
  nose_direction : String
  total_score : ℚ
  assessment : String
  landmarks_coords : List (ℤ × ℤ)
  capture_ready : Bool
  center_alignment_score : ℚ
  distance_feedback : String
  face_width : ℚ
  face_stability : ℚ
  accurate_center_x : ℚ

/-- Body of analyze_face_asymmetry_mediapipe past the length guard,
app.py lines 41-131. -/
def analyzeCore (lms : List Landmark) (w h : ℤ) : AsymmetryResult :=
  { eye_diff := round1 (-(eye_diff_raw lms w h : ℚ))
    mouth_diff := round1 (-(mouth_diff_raw lms w h : ℚ))
    nose_offset := round1 (-(nose_offset_raw lms w h))
    eye_asymmetry_val := round1 (|eye_diff_raw lms w h| : ℚ)
    mouth_asymmetry_val := round1 (|mouth_diff_raw lms w h| : ℚ)
    nose_asymmetry_val := round1 |nose_offset_raw lms w h|
    eye_direction := eye_direction_raw lms w h
    mouth_direction := mouth_direction_raw lms w h
    nose_direction := nose_direction_raw lms w h
    total_score := round1 (total_score_raw lms w h)
    assessment := get_asymmetry_assessment (total_score_raw lms w h)
    landmarks_coords :=
      [left_eye_px lms w h, right_eye_px lms w h, nose_tip_px lms w h,
        chin_px lms w h, left_mouth_px lms w h, right_mouth_px lms w h]
    capture_ready := capture_ready_raw lms w h
    center_alignment_score := round1 |nose_offset_raw lms w h|
    distance_feedback := distance_feedback_raw lms w h
    face_width := (face_width_raw lms w h : ℚ)
    face_stability := round1 (face_stability_raw lms w h : ℚ)
    accurate_center_x := face_center_x_raw lms w h }

/-- Top level analyzer, app.py lines 36-131: the guard
"if not landmarks or len(landmarks) < 468: return None" followed by the
computation of the result record.  An empty list has length 0 < 468, so
the guard is exactly the length test. -/
def analyze_face_asymmetry_mediapipe (lms : List Landmark) (w h : ℤ) :
    Option AsymmetryResult :=
  if lms.length < 468 then none else some (analyzeCore lms w h)

/-
Image composer.  A frame is modelled by its width, its height and a map
from column index to column content; all operations of
create_symmetry_images_simple act on whole columns (frame[:, x]), so a
column-level model is pixel-faithful: two images are pixel-identical
exactly when their column maps agree on the index range of the frame.
The column content type is a parameter.
-/

/-- Frame as delivered by the transport: shape (h, w, channels) and the
column map; the channel count plays no role in the column operations. -/
structure FrameImg (α : Type) where
  h : ℤ
  w : ℤ
  col : ℤ → α

/-- Assignment frame[:, i] = v of one column of an image. -/
def updateCol {α : Type} (f : ℤ → α) (i : ℤ) (v : α) : ℤ → α :=
  fun x => if x = i then v else f x

/-- Python range(lo, hi) as a list of integers. -/
def intRange (lo hi : ℤ) : List ℤ :=
  (List.range (hi - lo).toNat).map (fun i : ℕ => lo + (i : ℤ))

/-- Horizontal flip cv2.flip(img, 1): column x of the result is column
w - 1 - x of the input. -/
def flipH {α : Type} (w : ℤ) (f : ℤ → α) : ℤ → α :=
  fun x => f (w - 1 - x)

/-- In-place loop of app.py lines 155-158: for x in
range(center_x, min(w, center_x + 100)): mirror_x = 2 * center_x - x;
if 0 <= mirror_x < center_x: img[:, x] = img[:, mirror_x]. -/
def leftMirrorLoop {α : Type} (c w : ℤ) (f : ℤ → α) : ℤ → α :=
  (intRange c (min w (c + 100))).foldl
    (fun img x =>
      if 0 ≤ 2 * c - x ∧ 2 * c - x < c then updateCol img x (img (2 * c - x))
      else img) f

/-- In-place loop of app.py lines 163-166: for x in
range(max(0, center_x - 100), center_x): mirror_x = 2 * center_x - x;
if center_x <= mirror_x < w: img[:, x] = img[:, mirror_x]. -/
def rightMirrorLoop {α : Type} (c w : ℤ) (f : ℤ → α) : ℤ → α :=
  (intRange (max 0 (c - 100)) c).foldl
    (fun img x =>
      if c ≤ 2 * c - x ∧ 2 * c - x < w then updateCol img x (img (2 * c - x))
      else img) f

/-- Triple of composed images (original, left-symmetric, right-symmetric),
the three values of the dict returned at app.py lines 174-178; the lossy
base64/JPEG encoding of the source is outside the pixel-level model. -/
def SymTriple (α : Type) : Type := (ℤ → α) × (ℤ → α) × (ℤ → α)

/-- Composer create_symmetry_images_simple, app.py lines 145-178:
center_x = int(face_center_x); the de-mirrored original is a horizontal
flip of the frame, and each symmetric composite is the corresponding
in-place column-copy loop followed by a horizontal flip. -/
def create_symmetry_images_simple {α : Type} (frame : FrameImg α)
    (face_center_x : ℚ) : SymTriple α :=
  let c := truncQ face_center_x
  (flipH frame.w frame.col,
   flipH frame.w (leftMirrorLoop c frame.w frame.col),
   flipH frame.w (rightMirrorLoop c frame.w frame.col))

/-- Pure form of the left-symmetric column copy: every column in the
copy band takes its mirrored column directly from the untouched original
frame (used by the refinement claim about the in-place loops). -/
def leftPure {α : Type} (c w : ℤ) (f : ℤ → α) : ℤ → α :=
  fun x =>
    if c ≤ x ∧ x < min w (c + 100) ∧ 0 ≤ 2 * c - x ∧ 2 * c - x < c then
      f (2 * c - x)
    else f x

/-- Pure form of the right-symmetric column copy from the untouched
original frame. -/
def rightPure {α : Type} (c w : ℤ) (f : ℤ → α) : ℤ → α :=
  fun x =>
    if max 0 (c - 100) ≤ x ∧ x < c ∧ c ≤ 2 * c - x ∧ 2 * c - x < w then
      f (2 * c - x)
    else f x

/-
Session-state model of the WebSocket endpoint, app.py lines 682-746.
The source keeps the module-level globals captured_images (a dict that is
either empty or holds the three image keys) and last_frame_data (slots
"frame" and "landmarks", the latter holding the last analysis result
dict).  A result dict is modelled as the analyzer record together with
the optional image keys that dict-update may have merged into it.
-/

/-- Shared server state: the two module-level globals of app.py
lines 32-34.  captured models the captured_images dict (none = empty),
lastFrame and lastResult model the two slots of last_frame_data. -/
structure ServerState (α : Type) where
  captured : Option (SymTriple α)
  lastFrame : Option (FrameImg α)
  lastResult : Option (AsymmetryResult × Option (SymTriple α))

/-- Message sent back to the client on the paths relevant here: a result
dict (analysis fields plus optional merged image keys), the
analysis-failed error of app.py line 730, or the nothing-to-capture
error of app.py line 705. -/
inductive Response (α : Type) where
  | ok : AsymmetryResult × Option (SymTriple α) → Response α
  | analysisFailed : Response α
  | nothingToCapture : Response α

/-- Test for the nothing-to-capture error response. -/
def Response.isNothingToCapture {α : Type} : Response α → Bool :=
  fun r => match r with
  | Response.nothingToCapture => true
  | _ => false

/-- Frame-processing path of the endpoint for a detected face, app.py
lines 717-730: run the analyzer on (landmarks, frame.shape[1],
frame.shape[0]); on success store the frame and the result dict in
last_frame_data (line 722-723) and then, if captured_images is nonempty,
merge the image keys into that same stored dict by result.update
(lines 725-726) before sending it (line 728).  The stored record and
the sent record are one and the same object, hence both carry the
captured images exactly when captured_images was nonempty. -/
def processFrame {α : Type} (s : ServerState α) (frame : FrameImg α)
    (lms : List Landmark) : ServerState α × Response α :=
  match analyze_face_asymmetry_mediapipe lms frame.w frame.h with
  | none => (s, Response.analysisFailed)
  | some r =>
      let stored := (r, s.captured)
      (⟨s.captured, some frame, some stored⟩, Response.ok stored)

/-- Capture path of the endpoint, app.py lines 692-706: if both slots of
last_frame_data are set, compose the symmetry images from the cached
frame and the cached accurate_center_x, overwrite captured_images with
them (line 699), and send a copy of the cached result updated with the
captured images (lines 701-703); otherwise send the nothing-to-capture
error and leave every slot untouched. -/
def captureStep {α : Type} (s : ServerState α) : ServerState α × Response α :=
  match s.lastFrame, s.lastResult with
  | some frame, some res =>
      let imgs := create_symmetry_images_simple frame res.1.accurate_center_x
      (⟨some imgs, s.lastFrame, s.lastResult⟩, Response.ok (res.1, some imgs))
  | _, _ => (s, Response.nothingToCapture)

/-- Session-end clearing in the finally block, app.py lines 742-746:
captured_images.clear() and both last_frame_data slots set to None. -/
def sessionEnd {α : Type} (_ : ServerState α) : ServerState α :=
  ⟨none, none, none⟩

/-- Landmark set used for concrete evaluations: 468 copies of the
centered landmark (1/2, 1/2). -/
def lms0 : List Landmark := List.replicate 468 ⟨1 / 2, 1 / 2⟩

/-- Concrete 640 by 480 frame with constant content. -/
def frame0 : FrameImg ℤ := ⟨480, 640, fun _ => 0⟩

/-- Fresh server state: both globals empty, as at module load. -/
def freshState : ServerState ℤ := ⟨none, none, none⟩

/-- Width-4 frame with columns 0, 1, 1, 0: its pixel content is
perfectly left-right symmetric (equal to its own horizontal flip). -/
def mirrorTestFrame : FrameImg ℤ :=
  ⟨1, 4, fun x => if x = 1 ∨ x = 2 then 1 else 0⟩

/-- Landmark set whose product coordinate 3/4 * 2 = 3/2 separates
truncation from rounding. -/
def lmsQ : List Landmark := List.replicate 468 ⟨3 / 4, 3 / 4⟩

lemma lms0_length : lms0.length = 468 := by
  unfold lms0
  exact List.length_replicate 468 _

lemma lmsQ_length : lmsQ.length = 468 := by
  unfold lmsQ
  exact List.length_replicate 468 _

lemma pyRound_ge_floor (q : ℚ) : ⌊q⌋ ≤ pyRound q := by
  unfold pyRound
  dsimp only
  split_ifs <;> omega

lemma pyRound_le_ceil (q : ℚ) : pyRound q ≤ ⌈q⌉ := by
  unfold pyRound
  dsimp only
  split_ifs with h1 h2 h3
  · exact Int.floor_le_ceil q
  · exact Int.add_one_le_ceil_iff.mpr (by linarith [Int.floor_le q])
  · exact Int.floor_le_ceil q
  · exact Int.add_one_le_ceil_iff.mpr (by linarith [Int.floor_le q])

lemma round1_nonneg (q : ℚ) (hq : 0 ≤ q) : 0 ≤ round1 q := by
  unfold round1
  have h1 : (0 : ℤ) ≤ ⌊10 * q⌋ := Int.floor_nonneg.mpr (by linarith)
  have h2 : (0 : ℤ) ≤ pyRound (10 * q) := le_trans h1 (pyRound_ge_floor (10 * q))
  have h3 : (0 : ℚ) ≤ (pyRound (10 * q) : ℚ) := by exact_mod_cast h2
  linarith

lemma round1_le_100 (q : ℚ) (hq : q ≤ 100) : round1 q ≤ 100 := by
  unfold round1
  have h1 : ⌈10 * q⌉ ≤ 1000 := Int.ceil_le.mpr (by push_cast; linarith)
  have h2 : pyRound (10 * q) ≤ 1000 := le_trans (pyRound_le_ceil (10 * q)) h1
  have h3 : (pyRound (10 * q) : ℚ) ≤ 1000 := by exact_mod_cast h2
  linarith

/-- Claim C1: for every landmark set with at least 468 entries and any
frame dimensions, the total_score field of the analysis result equals
clamp(0, 100, (abs eye_diff + abs mouth_diff + abs nose_offset_raw) * 3)
rounded to one decimal, and lies in the interval from 0 to 100. -/
theorem c1_total_score_clamped (lms : List Landmark) (w h : ℤ)
    (hlen : 468 ≤ lms.length) :
    analyze_face_asymmetry_mediapipe lms w h = some (analyzeCore lms w h) ∧
    (analyzeCore lms w h).total_score =
      round1 (clamp 0 100
        (((|eye_diff_raw lms w h| : ℚ) + (|mouth_diff_raw lms w h| : ℚ) +
          |nose_offset_raw lms w h|) * 3)) ∧
    0 ≤ (analyzeCore lms w h).total_score ∧
    (analyzeCore lms w h).total_score ≤ 100 := by
  have habs : (0 : ℚ) ≤
      ((|eye_diff_raw lms w h| : ℚ) + (|mouth_diff_raw lms w h| : ℚ) +
        |nose_offset_raw lms w h|) * 3 := by positivity
  refine ⟨?_, ?_, ?_, ?_⟩
  · unfold analyze_face_asymmetry_mediapipe
    rw [if_neg (by omega)]
  · show round1 (total_score_raw lms w h) = _
    unfold total_score_raw total_asym_raw clamp
    congr 1
    rw [max_eq_right]
    exact le_min (by norm_num) habs
  · show 0 ≤ round1 (total_score_raw lms w h)
    apply round1_nonneg
    unfold total_score_raw total_asym_raw
    exact le_min (by norm_num) habs
  · show round1 (total_score_raw lms w h) ≤ 100
    exact round1_le_100 _ (min_le_left _ _)

/-- Witness for claim C1 at a concrete 468-entry landmark set on a
640 by 480 frame. -/
theorem c1_total_score_clamped_witness :
    468 ≤ lms0.length ∧
    (analyze_face_asymmetry_mediapipe lms0 640 480 = some (analyzeCore lms0 640 480) ∧
     (analyzeCore lms0 640 480).total_score =
       round1 (clamp 0 100
         (((|eye_diff_raw lms0 640 480| : ℚ) + (|mouth_diff_raw lms0 640 480| : ℚ) +
           |nose_offset_raw lms0 640 480|) * 3)) ∧
     0 ≤ (analyzeCore lms0 640 480).total_score ∧
     (analyzeCore lms0 640 480).total_score ≤ 100) :=
  ⟨by simp [lms0_length], c1_total_score_clamped lms0 640 480 (by simp [lms0_length])⟩

/-- Claim C2: the assessment label is determined by strict-less-than
band boundaries, the boundary scores 5, 10, 20 and 30 each belong to
the upper band, and the bands cover the nonnegative scores without gap
or overlap. -/
theorem c2_assessment_bands (s : ℚ) (hs : 0 ≤ s) :
    (s < 5 → get_asymmetry_assessment s = "매우 우수 (Very Symmetrical)") ∧
    (5 ≤ s → s < 10 → get_asymmetry_assessment s = "우수 (Good Symmetry)") ∧
    (10 ≤ s → s < 20 → get_asymmetry_assessment s = "보통 (Slight Asymmetry)") ∧
    (20 ≤ s → s < 30 → get_asymmetry_assessment s = "주의 (Moderate Asymmetry)") ∧
    (30 ≤ s → get_asymmetry_assessment s = "개선 필요 (Significant Asymmetry)") ∧
    get_asymmetry_assessment 5 = "우수 (Good Symmetry)" ∧
    get_asymmetry_assessment 10 = "보통 (Slight Asymmetry)" ∧
    get_asymmetry_assessment 20 = "주의 (Moderate Asymmetry)" ∧
    get_asymmetry_assessment 30 = "개선 필요 (Significant Asymmetry)" := by
  refine ⟨?_, ?_, ?_, ?_, ?_, by norm_num [get_asymmetry_assessment],
    by norm_num [get_asymmetry_assessment], by norm_num [get_asymmetry_assessment],
    by norm_num [get_asymmetry_assessment]⟩ <;>
    intros <;> unfold get_asymmetry_assessment <;>
    split_ifs <;> first | rfl | linarith

/-- Witness for claim C2 at the concrete score 7. -/
theorem c2_assessment_bands_witness :
    0 ≤ (7 : ℚ) ∧
    (((7 : ℚ) < 5 → get_asymmetry_assessment 7 = "매우 우수 (Very Symmetrical)") ∧
     (5 ≤ (7 : ℚ) → (7 : ℚ) < 10 → get_asymmetry_assessment 7 = "우수 (Good Symmetry)") ∧
     (10 ≤ (7 : ℚ) → (7 : ℚ) < 20 → get_asymmetry_assessment 7 = "보통 (Slight Asymmetry)") ∧
     (20 ≤ (7 : ℚ) → (7 : ℚ) < 30 → get_asymmetry_assessment 7 = "주의 (Moderate Asymmetry)") ∧
     (30 ≤ (7 : ℚ) → get_asymmetry_assessment 7 = "개선 필요 (Significant Asymmetry)") ∧
     get_asymmetry_assessment 5 = "우수 (Good Symmetry)" ∧
     get_asymmetry_assessment 10 = "보통 (Slight Asymmetry)" ∧
     get_asymmetry_assessment 20 = "주의 (Moderate Asymmetry)" ∧
     get_asymmetry_assessment 30 = "개선 필요 (Significant Asymmetry)") :=
  ⟨by norm_num, c2_assessment_bands 7 (by norm_num)⟩

/-- Claim C3: the analyzer returns the insufficient-data signal none
exactly when the landmark set has fewer than 468 entries, and on a set
with at least 468 entries it returns the complete result record (the
embedding is a total function, matching the absence of exceptions). -/
theorem c3_insufficient_landmarks (lms : List Landmark) (w h : ℤ) :
    (analyze_face_asymmetry_mediapipe lms w h = none ↔ lms.length < 468) ∧
    (468 ≤ lms.length →
      analyze_face_asymmetry_mediapipe lms w h = some (analyzeCore lms w h)) := by
  refine ⟨⟨fun hnone => ?_, fun hlt => ?_⟩, fun hge => ?_⟩
  · by_contra hge
    push_neg at hge
    unfold analyze_face_asymmetry_mediapipe at hnone
    rw [if_neg (by omega)] at hnone
    exact Option.noConfusion hnone
  · unfold analyze_face_asymmetry_mediapipe
    rw [if_pos hlt]
  · unfold analyze_face_asymmetry_mediapipe
    rw [if_neg (by omega)]

/-- Witness for claim C3: a 468-entry set yields a full record, the
empty set yields none. -/
theorem c3_insufficient_landmarks_witness :
    (468 ≤ lms0.length ∧
      analyze_face_asymmetry_mediapipe lms0 640 480 = some (analyzeCore lms0 640 480)) ∧
    analyze_face_asymmetry_mediapipe [] 640 480 = none :=
  ⟨⟨by simp [lms0_length], (c3_insufficient_landmarks lms0 640 480).2 (by simp [lms0_length])⟩,
   (c3_insufficient_landmarks [] 640 480).1.mpr (by simp)⟩

/-- Claim C4: capture_ready is true exactly when all four conditions
hold, with inclusive face-width boundaries 120 and 200. -/
theorem c4_capture_ready_iff (lms : List Landmark) (w h : ℤ)
    (hlen : 468 ≤ lms.length) :
    analyze_face_asymmetry_mediapipe lms w h = some (analyzeCore lms w h) ∧
    ((analyzeCore lms w h).capture_ready = true ↔
      (120 ≤ face_width_raw lms w h ∧ face_width_raw lms w h ≤ 200 ∧
       |nose_offset_raw lms w h| < 15 ∧
       |face_center_x_raw lms w h - (w : ℚ) / 2| < 60 ∧
       |eye_diff_raw lms w h| + |mouth_diff_raw lms w h| < 25)) ∧
    (face_width_raw lms w h = 120 → |nose_offset_raw lms w h| < 15 →
      |face_center_x_raw lms w h - (w : ℚ) / 2| < 60 →
      |eye_diff_raw lms w h| + |mouth_diff_raw lms w h| < 25 →
      (analyzeCore lms w h).capture_ready = true) ∧
    (face_width_raw lms w h = 200 → |nose_offset_raw lms w h| < 15 →
      |face_center_x_raw lms w h - (w : ℚ) / 2| < 60 →
      |eye_diff_raw lms w h| + |mouth_diff_raw lms w h| < 25 →
      (analyzeCore lms w h).capture_ready = true) := by
  have hiff : (analyzeCore lms w h).capture_ready = true ↔
      (120 ≤ face_width_raw lms w h ∧ face_width_raw lms w h ≤ 200 ∧
       |nose_offset_raw lms w h| < 15 ∧
       |face_center_x_raw lms w h - (w : ℚ) / 2| < 60 ∧
       |eye_diff_raw lms w h| + |mouth_diff_raw lms w h| < 25) := by
    show capture_ready_raw lms w h = true ↔ _
    unfold capture_ready_raw position_offset_x_raw face_stability_raw
    rw [decide_eq_true_iff]
  refine ⟨?_, hiff, ?_, ?_⟩
  · unfold analyze_face_asymmetry_mediapipe
    rw [if_neg (by omega)]
  · intro h1 h2 h3 h4
    exact hiff.mpr ⟨by omega, by omega, h2, h3, h4⟩
  · intro h1 h2 h3 h4
    exact hiff.mpr ⟨by omega, by omega, h2, h3, h4⟩

/-- Witness for claim C4 at a concrete 468-entry landmark set. -/
theorem c4_capture_ready_iff_witness :
    468 ≤ lms0.length ∧
    (analyze_face_asymmetry_mediapipe lms0 640 480 = some (analyzeCore lms0 640 480) ∧
     ((analyzeCore lms0 640 480).capture_ready = true ↔
       (120 ≤ face_width_raw lms0 640 480 ∧ face_width_raw lms0 640 480 ≤ 200 ∧
        |nose_offset_raw lms0 640 480| < 15 ∧
        |face_center_x_raw lms0 640 480 - (640 : ℚ) / 2| < 60 ∧
        |eye_diff_raw lms0 640 480| + |mouth_diff_raw lms0 640 480| < 25)) ∧
     (face_width_raw lms0 640 480 = 120 → |nose_offset_raw lms0 640 480| < 15 →
       |face_center_x_raw lms0 640 480 - (640 : ℚ) / 2| < 60 →
       |eye_diff_raw lms0 640 480| + |mouth_diff_raw lms0 640 480| < 25 →
       (analyzeCore lms0 640 480).capture_ready = true) ∧
     (face_width_raw lms0 640 480 = 200 → |nose_offset_raw lms0 640 480| < 15 →
       |face_center_x_raw lms0 640 480 - (640 : ℚ) / 2| < 60 →
       |eye_diff_raw lms0 640 480| + |mouth_diff_raw lms0 640 480| < 25 →
       (analyzeCore lms0 640 480).capture_ready = true)) :=
  ⟨by simp [lms0_length], c4_capture_ready_iff lms0 640 480 (by simp [lms0_length])⟩

/-- Counterexample for claim C5: the source converts with Python int()
(truncation), not round().  On a 468-entry landmark set whose landmarks
sit at (3/4, 3/4) in a 2 by 2 frame, every product is 3/2; the analyzer
stores pixel coordinate 1 = int(3/2) while round(3/2) = 2, refuting the
claim as stated. -/
lemma truncQ_three_halves : truncQ (3 / 2 : ℚ) = 1 := by
  unfold truncQ
  rw [if_pos (by norm_num), Int.floor_eq_iff]
  norm_num

lemma pyRound_three_halves : pyRound (3 / 2 : ℚ) = 2 := by
  unfold pyRound
  have hf : ⌊(3 / 2 : ℚ)⌋ = 1 := by
    rw [Int.floor_eq_iff]
    norm_num
  dsimp only
  rw [hf]
  norm_num

lemma analyzeCore_coords (lms : List Landmark) (w h : ℤ) :
    (analyzeCore lms w h).landmarks_coords =
      [left_eye_px lms w h, right_eye_px lms w h, nose_tip_px lms w h,
        chin_px lms w h, left_mouth_px lms w h, right_mouth_px lms w h] := rfl

lemma lmAt_lmsQ_left_eye : lmAt lmsQ LEFT_EYE_OUTER = ⟨3 / 4, 3 / 4⟩ := rfl

theorem c5_round_counterexample :
    ¬ (∀ (lms : List Landmark) (w h : ℤ), 468 ≤ lms.length →
        ∀ r, analyze_face_asymmetry_mediapipe lms w h = some r →
          r.landmarks_coords =
            [(pyRound ((lmAt lms LEFT_EYE_OUTER).x * w),
              pyRound ((lmAt lms LEFT_EYE_OUTER).y * h)),
             (pyRound ((lmAt lms RIGHT_EYE_OUTER).x * w),
              pyRound ((lmAt lms RIGHT_EYE_OUTER).y * h)),
             (pyRound ((lmAt lms NOSE_TIP).x * w),
              pyRound ((lmAt lms NOSE_TIP).y * h)),
             (pyRound ((lmAt lms CHIN).x * w),
              pyRound ((lmAt lms CHIN).y * h)),
             (pyRound ((lmAt lms LEFT_MOUTH).x * w),
              pyRound ((lmAt lms LEFT_MOUTH).y * h)),
             (pyRound ((lmAt lms RIGHT_MOUTH).x * w),
              pyRound ((lmAt lms RIGHT_MOUTH).y * h))]) := by
  intro hcl
  have hsome : analyze_face_asymmetry_mediapipe lmsQ 2 2 = some (analyzeCore lmsQ 2 2) := by
    unfold analyze_face_asymmetry_mediapipe
    rw [if_neg (by rw [lmsQ_length]; omega)]
  have h := hcl lmsQ 2 2 (by rw [lmsQ_length]) (analyzeCore lmsQ 2 2) hsome
  rw [analyzeCore_coords] at h
  have h1 : left_eye_px lmsQ 2 2 =
      (pyRound ((lmAt lmsQ LEFT_EYE_OUTER).x * ((2 : ℤ) : ℚ)),
       pyRound ((lmAt lmsQ LEFT_EYE_OUTER).y * ((2 : ℤ) : ℚ))) :=
    (List.cons.inj h).1
  have harg : ((3 : ℚ) / 4) * ((2 : ℤ) : ℚ) = 3 / 2 := by norm_num
  simp only [left_eye_px, to_pixel, lmAt_lmsQ_left_eye, harg,
    truncQ_three_halves, pyRound_three_halves] at h1
  exact absurd h1 (by decide)

/-- Claim C5 amended: each of the six semantic points is converted from
normalized coordinates to pixel coordinates by truncation toward zero
(Python int), i.e. the pixel x-coordinate is int(landmark.x * image_width)
and the pixel y-coordinate is int(landmark.y * image_height); for a
nonnegative product truncation is the floor, and truncation never
increases the magnitude. -/
theorem c5_to_pixel_trunc (lms : List Landmark) (w h : ℤ)
    (hlen : 468 ≤ lms.length) :
    analyze_face_asymmetry_mediapipe lms w h = some (analyzeCore lms w h) ∧
    (analyzeCore lms w h).landmarks_coords =
      [(truncQ ((lmAt lms LEFT_EYE_OUTER).x * w), truncQ ((lmAt lms LEFT_EYE_OUTER).y * h)),
       (truncQ ((lmAt lms RIGHT_EYE_OUTER).x * w), truncQ ((lmAt lms RIGHT_EYE_OUTER).y * h)),
       (truncQ ((lmAt lms NOSE_TIP).x * w), truncQ ((lmAt lms NOSE_TIP).y * h)),
       (truncQ ((lmAt lms CHIN).x * w), truncQ ((lmAt lms CHIN).y * h)),
       (truncQ ((lmAt lms LEFT_MOUTH).x * w), truncQ ((lmAt lms LEFT_MOUTH).y * h)),
       (truncQ ((lmAt lms RIGHT_MOUTH).x * w), truncQ ((lmAt lms RIGHT_MOUTH).y * h))] ∧
    (∀ q : ℚ, 0 ≤ q → truncQ q = ⌊q⌋) ∧
    (∀ q : ℚ, (|truncQ q| : ℚ) ≤ |q|) := by
  refine ⟨?_, rfl, fun q hq => if_pos hq, fun q => ?_⟩
  · unfold analyze_face_asymmetry_mediapipe
    rw [if_neg (by omega)]
  · unfold truncQ
    split_ifs with hq
    · rw [abs_of_nonneg hq, abs_of_nonneg]
      · exact_mod_cast Int.floor_le q
      · exact_mod_cast Int.floor_nonneg.mpr hq
    · push_neg at hq
      rw [abs_of_neg hq, abs_of_nonpos]
      · have := Int.le_ceil q
        linarith
      · have hc : ⌈q⌉ ≤ (0 : ℤ) := Int.ceil_le.mpr (by exact_mod_cast le_of_lt hq)
        exact_mod_cast hc

/-- Witness for the amended claim C5 at a concrete 468-entry set. -/
theorem c5_to_pixel_trunc_witness :
    468 ≤ lms0.length ∧
    (analyze_face_asymmetry_mediapipe lms0 640 480 = some (analyzeCore lms0 640 480) ∧
     (analyzeCore lms0 640 480).landmarks_coords =
       [(truncQ ((lmAt lms0 LEFT_EYE_OUTER).x * 640), truncQ ((lmAt lms0 LEFT_EYE_OUTER).y * 480)),
        (truncQ ((lmAt lms0 RIGHT_EYE_OUTER).x * 640), truncQ ((lmAt lms0 RIGHT_EYE_OUTER).y * 480)),
        (truncQ ((lmAt lms0 NOSE_TIP).x * 640), truncQ ((lmAt lms0 NOSE_TIP).y * 480)),
        (truncQ ((lmAt lms0 CHIN).x * 640), truncQ ((lmAt lms0 CHIN).y * 480)),
        (truncQ ((lmAt lms0 LEFT_MOUTH).x * 640), truncQ ((lmAt lms0 LEFT_MOUTH).y * 480)),
        (truncQ ((lmAt lms0 RIGHT_MOUTH).x * 640), truncQ ((lmAt lms0 RIGHT_MOUTH).y * 480))] ∧
     (∀ q : ℚ, 0 ≤ q → truncQ q = ⌊q⌋) ∧
     (∀ q : ℚ, (|truncQ q| : ℚ) ≤ |q|)) :=
  ⟨by simp [lms0_length], c5_to_pixel_trunc lms0 640 480 (by simp [lms0_length])⟩

lemma mem_intRange {y lo hi : ℤ} : y ∈ intRange lo hi ↔ lo ≤ y ∧ y < hi := by
  unfold intRange
  simp only [List.mem_map, List.mem_range]
  constructor
  · rintro ⟨i, hi1, rfl⟩
    omega
  · rintro ⟨h1, h2⟩
    exact ⟨(y - lo).toNat, by omega, by omega⟩

/-- General shape of the in-place column-copy loops: when no copy source
m y can coincide with any written column of the iteration list, the
sequential in-place fold equals the simultaneous copy from the original
image. -/
lemma copy_foldl {α : Type} (m : ℤ → ℤ) (p : ℤ → Prop) [DecidablePred p] :
    ∀ (xs : List ℤ) (g : ℤ → α), (∀ a ∈ xs, ∀ y, p y → m y ≠ a) →
      xs.foldl (fun img x => if p x then updateCol img x (img (m x)) else img) g =
        fun y => if y ∈ xs ∧ p y then g (m y) else g y := by
  intro xs
  induction xs with
  | nil =>
    intro g _
    funext y
    simp
  | cons a xs ih =>
    intro g hm
    rw [List.foldl_cons,
      ih _ (fun b hb y hy => hm b (List.mem_cons_of_mem a hb) y hy)]
    funext y
    by_cases hy : y ∈ xs ∧ p y
    · have hmem : y ∈ a :: xs ∧ p y := ⟨List.mem_cons_of_mem a hy.1, hy.2⟩
      rw [if_pos hy, if_pos hmem]
      have hne : m y ≠ a := hm a (List.mem_cons_self a xs) y hy.2
      by_cases hpa : p a
      · rw [if_pos hpa]
        simp only [updateCol]
        rw [if_neg hne]
      · rw [if_neg hpa]
    · rw [if_neg hy]
      by_cases hya : y = a
      · subst hya
        by_cases hpy : p y
        · have hmem : y ∈ y :: xs ∧ p y := ⟨List.mem_cons_self y xs, hpy⟩
          rw [if_pos hmem, if_pos hpy]
          simp [updateCol]
        · have hnm : ¬(y ∈ y :: xs ∧ p y) := fun hc => hpy hc.2
          rw [if_neg hnm, if_neg hpy]
      · have hnc : ¬(y ∈ a :: xs ∧ p y) := by
          intro hc
          rcases List.mem_cons.mp hc.1 with hh | hh
          · exact hya hh
          · exact hy ⟨hh, hc.2⟩
        rw [if_neg hnc]
        by_cases hpa : p a
        · rw [if_pos hpa]
          simp only [updateCol]
          rw [if_neg hya]
        · rw [if_neg hpa]

/-- The left copy loop writes only columns at or right of the axis while
reading only columns strictly left of it, so it equals the pure copy. -/
lemma leftMirrorLoop_eq_pure {α : Type} (c w : ℤ) (f : ℤ → α) :
    leftMirrorLoop c w f = leftPure c w f := by
  have hm : ∀ a ∈ intRange c (min w (c + 100)), ∀ y : ℤ,
      0 ≤ 2 * c - y ∧ 2 * c - y < c → 2 * c - y ≠ a := by
    intro a ha y hy
    have hmem := mem_intRange.mp ha
    omega
  have h := copy_foldl (fun x : ℤ => 2 * c - x)
    (fun x : ℤ => 0 ≤ 2 * c - x ∧ 2 * c - x < c)
    (intRange c (min w (c + 100))) f hm
  refine Eq.trans h ?_
  funext y
  unfold leftPure
  by_cases hc : c ≤ y ∧ y < min w (c + 100) ∧ 0 ≤ 2 * c - y ∧ 2 * c - y < c
  · rw [if_pos ⟨mem_intRange.mpr ⟨hc.1, hc.2.1⟩, hc.2.2⟩, if_pos hc]
  · have hnc : ¬(y ∈ intRange c (min w (c + 100)) ∧
        (0 ≤ 2 * c - y ∧ 2 * c - y < c)) := by
      intro hcon
      have := mem_intRange.mp hcon.1
      exact hc ⟨this.1, this.2, hcon.2⟩
    rw [if_neg hnc, if_neg hc]

/-- The right copy loop writes only columns strictly left of the axis
while reading only columns at or right of it, so it equals the pure copy. -/
lemma rightMirrorLoop_eq_pure {α : Type} (c w : ℤ) (f : ℤ → α) :
    rightMirrorLoop c w f = rightPure c w f := by
  have hm : ∀ a ∈ intRange (max 0 (c - 100)) c, ∀ y : ℤ,
      c ≤ 2 * c - y ∧ 2 * c - y < w → 2 * c - y ≠ a := by
    intro a ha y hy
    have hmem := mem_intRange.mp ha
    omega
  have h := copy_foldl (fun x : ℤ => 2 * c - x)
    (fun x : ℤ => c ≤ 2 * c - x ∧ 2 * c - x < w)
    (intRange (max 0 (c - 100)) c) f hm
  refine Eq.trans h ?_
  funext y
  unfold rightPure
  by_cases hc : max 0 (c - 100) ≤ y ∧ y < c ∧ c ≤ 2 * c - y ∧ 2 * c - y < w
  · rw [if_pos ⟨mem_intRange.mpr ⟨hc.1, hc.2.1⟩, hc.2.2⟩, if_pos hc]
  · have hnc : ¬(y ∈ intRange (max 0 (c - 100)) c ∧
        (c ≤ 2 * c - y ∧ 2 * c - y < w)) := by
      intro hcon
      have := mem_intRange.mp hcon.1
      exact hc ⟨this.1, this.2, hcon.2⟩
    rw [if_neg hnc, if_neg hc]

/-- Claim C10: the in-place column copies never overwrite a column
before it is read as a source, so each composite produced by
create_symmetry_images_simple equals the horizontal flip of the pure
algorithm that copies every mirrored column from an untouched copy of
the original frame. -/
theorem c10_inplace_equals_pure {α : Type} (frame : FrameImg α)
    (face_center_x : ℚ) (x : ℤ) :
    (create_symmetry_images_simple frame face_center_x).2.1 x =
      flipH frame.w (leftPure (truncQ face_center_x) frame.w frame.col) x ∧
    (create_symmetry_images_simple frame face_center_x).2.2 x =
      flipH frame.w (rightPure (truncQ face_center_x) frame.w frame.col) x := by
  constructor
  · show flipH frame.w
      (leftMirrorLoop (truncQ face_center_x) frame.w frame.col) x = _
    rw [leftMirrorLoop_eq_pure]
  · show flipH frame.w
      (rightMirrorLoop (truncQ face_center_x) frame.w frame.col) x = _
    rw [rightMirrorLoop_eq_pure]

/-- Counterexample for claim C6: on the width-4 frame with columns
0, 1, 1, 0, which equals its own horizontal flip, and axis 2 = width / 2
(the horizontal midpoint), the left-symmetric composite differs from the
de-mirrored original at column 0: the loop copies column 1 onto column 3
(mirror about the axis COLUMN, 2 * 2 - 3 = 1, rather than about the flip
axis, 4 - 1 - 3 = 0), so after flipping, column 0 holds 1 while the
flipped original holds 0 there.  This refutes the claim as stated. -/
theorem c6_midpoint_counterexample :
    ¬ (∀ (frame : FrameImg ℤ) (axis : ℚ),
        (∀ x : ℤ, frame.col x = frame.col (frame.w - 1 - x)) →
        2 * axis = (frame.w : ℚ) →
        ∀ x : ℤ, 0 ≤ x → x < frame.w →
          (create_symmetry_images_simple frame axis).2.1 x =
            (create_symmetry_images_simple frame axis).1 x ∧
          (create_symmetry_images_simple frame axis).2.2 x =
            (create_symmetry_images_simple frame axis).1 x) := by
  intro hcl
  have hsym : ∀ x : ℤ, mirrorTestFrame.col x =
      mirrorTestFrame.col (mirrorTestFrame.w - 1 - x) := by
    intro x
    show (if x = 1 ∨ x = 2 then (1 : ℤ) else 0) =
      (if (4 : ℤ) - 1 - x = 1 ∨ (4 : ℤ) - 1 - x = 2 then (1 : ℤ) else 0)
    split_ifs <;> omega
  have h := hcl mirrorTestFrame 2 hsym (by norm_num [mirrorTestFrame]) 0
    le_rfl (by norm_num [mirrorTestFrame])
  exact absurd h.1 (by decide)

/-- Claim C6 amended: for every frame whose content is symmetric about
the integer axis column (column x agrees with column 2 * axis - x
whenever both indices are in range), the left-symmetric and
right-symmetric composites are pixel-identical, at every column, to the
de-mirrored original, the horizontal flip of the frame.  (The claim as
stated, with flip-symmetry and the axis at the exact midpoint w/2,
fails; symmetry about the axis column is what makes the in-place copies
no-ops.) -/
theorem c6_axis_symmetric_roundtrip {α : Type} (frame : FrameImg α)
    (axis : ℚ)
    (hsym : ∀ x : ℤ, 0 ≤ x → x < frame.w → 0 ≤ 2 * truncQ axis - x →
      2 * truncQ axis - x < frame.w →
      frame.col x = frame.col (2 * truncQ axis - x)) :
    ∀ x : ℤ,
      (create_symmetry_images_simple frame axis).2.1 x =
        (create_symmetry_images_simple frame axis).1 x ∧
      (create_symmetry_images_simple frame axis).2.2 x =
        (create_symmetry_images_simple frame axis).1 x := by
  intro x
  have hleft : ∀ y : ℤ,
      leftMirrorLoop (truncQ axis) frame.w frame.col y = frame.col y := by
    intro y
    rw [leftMirrorLoop_eq_pure]
    unfold leftPure
    split_ifs with hcond
    · exact (hsym y (by omega) (by omega) (by omega) (by omega)).symm
    · rfl
  have hright : ∀ y : ℤ,
      rightMirrorLoop (truncQ axis) frame.w frame.col y = frame.col y := by
    intro y
    rw [rightMirrorLoop_eq_pure]
    unfold rightPure
    split_ifs with hcond
    · exact (hsym y (by omega) (by omega) (by omega) (by omega)).symm
    · rfl
  constructor
  · show flipH frame.w (leftMirrorLoop (truncQ axis) frame.w frame.col) x =
      flipH frame.w frame.col x
    unfold flipH
    exact hleft _
  · show flipH frame.w (rightMirrorLoop (truncQ axis) frame.w frame.col) x =
      flipH frame.w frame.col x
    unfold flipH
    exact hright _

/-- Witness for the amended claim C6 on the concrete constant frame,
whose columns are trivially symmetric about the axis column. -/
theorem c6_axis_symmetric_roundtrip_witness :
    (∀ x : ℤ, 0 ≤ x → x < frame0.w → 0 ≤ 2 * truncQ 320 - x →
      2 * truncQ 320 - x < frame0.w →
      frame0.col x = frame0.col (2 * truncQ 320 - x)) ∧
    ((create_symmetry_images_simple frame0 320).2.1 7 =
      (create_symmetry_images_simple frame0 320).1 7 ∧
     (create_symmetry_images_simple frame0 320).2.2 7 =
      (create_symmetry_images_simple frame0 320).1 7) :=
  ⟨fun _ _ _ _ _ => rfl,
   c6_axis_symmetric_roundtrip frame0 320 (fun _ _ _ _ _ => rfl) 7⟩

set_option maxRecDepth 8000 in
/-- Claim C7 is violated by the source: last_frame_data and
captured_images are module-level globals (app.py lines 32-34, declared
global in the endpoint at line 684), so all connections share one
state.  Concretely, after one session processes a single valid frame,
a capture request arriving on the shared state - as issued by a second
session that never processed any frame - succeeds against the first
session's cached frame instead of returning the nothing-to-capture
error that a fresh, isolated session receives. -/
theorem c7_global_state_leak :
    ((captureStep (processFrame freshState frame0 lms0).1).2).isNothingToCapture
        = false ∧
    ((captureStep freshState).2).isNothingToCapture = true := by
  constructor <;> rfl

/-- Claim C8: a capture request with no cached frame or result returns
the structured nothing-to-capture error and leaves the state exactly as
it was; in particular this holds for the state right after session-end
clearing. -/
theorem c8_nothing_to_capture {α : Type} (s : ServerState α)
    (h : s.lastFrame = none ∨ s.lastResult = none) :
    captureStep s = (s, Response.nothingToCapture) ∧
    captureStep (sessionEnd s) =
      (sessionEnd s, Response.nothingToCapture) := by
  obtain ⟨cap, lf, lr⟩ := s
  dsimp only at h
  refine ⟨?_, rfl⟩
  rcases h with h | h <;> subst h
  · rfl
  · cases lf with
    | none => rfl
    | some f => rfl

/-- Witness for claim C8 on the fresh (empty) server state. -/
theorem c8_nothing_to_capture_witness :
    (freshState.lastFrame = none ∨ freshState.lastResult = none) ∧
    (captureStep freshState = (freshState, Response.nothingToCapture) ∧
     captureStep (sessionEnd freshState) =
       (sessionEnd freshState, Response.nothingToCapture)) :=
  ⟨Or.inl rfl, c8_nothing_to_capture freshState (Or.inl rfl)⟩

set_option maxRecDepth 8000 in
/-- Claim C9 is violated by the source: app.py line 723 stores the dict
returned by the analyzer in last_frame_data, and line 726 then mutates
that same stored dict in place by result.update(captured_images)
whenever captured_images is nonempty (the capture handler at line 701
copies before updating; the frame handler does not).  Concretely: after
a frame, a capture, and a second frame, the record held in the
last-known cache carries the merged captured-image fields, whereas
immediately after a frame processed with no captures it does not - so
the cached record no longer equals the bare record the analyzer
returned. -/
theorem c9_cached_result_mutation :
    ((processFrame (captureStep (processFrame freshState frame0 lms0).1).1
        frame0 lms0).1.lastResult).map (fun res => res.2.isSome) =
      some true ∧
    ((processFrame freshState frame0 lms0).1.lastResult).map
        (fun res => res.2.isSome) = some false := by
  constructor <;> rfl
